import Mathlib

/-!
Verification development for the SquareRun runtime core.

This file gives a shallow embedding of the player kinematics, collectible
entity and manager, camera smoothing, and game-state machine of the
repository, with JS numbers modelled as real numbers, JS `undefined`-able
object fields as `Option`, and `Math.random()` draws supplied as an
explicit stream `rand : Nat → Real`.  Methods that mutate `this` are
embedded as state-passing functions returning the updated record (and the
JS return value where one exists).
-/

set_option maxHeartbeats 1000000

noncomputable section

/-- A platform, as consumed by the player's collision code: position, size
and a stable numeric id used for safe-checkpoint identity. -/
structure Platform where
  x : ℝ
  y : ℝ
  width : ℝ
  height : ℝ
  id : ℤ

/-- An explosion particle owned by the player (created by
`Player.createExplosion`, advanced by `Player.updateParticles`). -/
structure Particle where
  x : ℝ
  y : ℝ
  width : ℝ
  height : ℝ
  dx : ℝ
  dy : ℝ
  angle : ℝ
  angleV : ℝ
  life : ℝ

/-- One effect descriptor from the collectible type catalog.  The JS
objects carry only the keys relevant to their type, so every optional key
is modelled as an `Option` field defaulting to `none`. -/
structure EffectCfg where
  type : String
  speedBoost : Option ℝ := none
  jumpBoost : Option ℝ := none
  healthBoost : Option ℝ := none
  invincible : Option Bool := none
  magnet : Option Bool := none
  duration : Option ℝ := none
  form : Option String := none

/-- One entry of the `typeConfigs` catalog in `Collectible.initializeType`. -/
structure TypeConfig where
  name : String
  size : ℝ
  value : ℝ
  color : String
  rotationSpeed : ℝ
  effects : List EffectCfg

/-- The `typeConfigs` catalog of `Collectible.initializeType`; the fallback
`typeConfigs[type] || typeConfigs.pixel` is realised by the catch-all arm. -/
def typeConfigs : String → TypeConfig
  | "gem" => { name := "Gem", size := 12, value := 50, color := "#e74c3c",
               rotationSpeed := 2, effects := [] }
  | "star" => { name := "Star", size := 15, value := 100, color := "#f39c12",
                rotationSpeed := 3, effects := [] }
  | "powerUp" => { name := "Power-Up", size := 14, value := 25, color := "#9b59b6",
                   rotationSpeed := 1.5,
                   effects := [{ type := "powerUp", speedBoost := some 1.5,
                                 duration := some 5000 }] }
  | "formChange" => { name := "Form Change", size := 16, value := 75, color := "#3498db",
                      rotationSpeed := 2.5,
                      effects := [{ type := "formChange", form := some ("circle") }] }
  | "health" => { name := "Health", size := 10, value := 30, color := "#2ecc71",
                  rotationSpeed := 1,
                  effects := [{ type := "powerUp", healthBoost := some 1,
                                duration := some 0 }] }
  | "speedBoost" => { name := "Speed Boost", size := 11, value := 40, color := "#e67e22",
                      rotationSpeed := 2,
                      effects := [{ type := "powerUp", speedBoost := some 2.0,
                                    duration := some 8000 }] }
  | "jumpBoost" => { name := "Jump Boost", size := 11, value := 35, color := "#8e44ad",
                     rotationSpeed := 1.8,
                     effects := [{ type := "powerUp", jumpBoost := some 1.8,
                                   duration := some 6000 }] }
  | "invincibility" => { name := "Invincibility", size := 13, value := 60, color := "#f1c40f",
                         rotationSpeed := 4,
                         effects := [{ type := "powerUp", invincible := some true,
                                       duration := some 4000 }] }
  | "magnet" => { name := "Magnet", size := 12, value := 45, color := "#34495e",
                  rotationSpeed := 2.2,
                  effects := [{ type := "powerUp", magnet := some true,
                                duration := some 7000 }] }
  | _ => { name := "Pixel", size := 8, value := 10, color := "#f1c40f",
           rotationSpeed := 0, effects := [] }

/-- A collectible entity, with the fields set by the `Collectible`
constructor and `initializeType`. -/
structure Collectible where
  x : ℝ
  y : ℝ
  active : Bool
  collected : Bool
  collectionTime : ℝ
  type : String
  size : ℝ
  value : ℝ
  animationFrame : ℝ
  animationSpeed : ℝ
  bobOffset : ℝ
  bobSpeed : ℝ
  rotation : ℝ
  rotationSpeed : ℝ
  color : String
  glowIntensity : ℝ
  pulseEffect : ℝ
  name : String
  effects : List EffectCfg

/-- The `Collectible` constructor followed by `initializeType(type)`. -/
def Collectible.make (x y : ℝ) (type : String) : Collectible :=
  let config := typeConfigs type
  { x := x, y := y, active := true, collected := false, collectionTime := 0,
    type := type, size := config.size, value := config.value,
    animationFrame := 0, animationSpeed := 0.1 + config.rotationSpeed * 0.05,
    bobOffset := 0, bobSpeed := 2, rotation := 0,
    rotationSpeed := config.rotationSpeed, color := config.color,
    glowIntensity := 0, pulseEffect := 0, name := config.name,
    effects := config.effects }

/-- `Collectible.update(dt)`: early-returns when inactive, otherwise
advances the animation phase, bob, rotation, glow and pulse decay. -/
def Collectible.update (dt : ℝ) (c : Collectible) : Collectible :=
  if c.active = false then c
  else
    let animationFrame := c.animationFrame + dt * c.animationSpeed
    let bobOffset := Real.sin (animationFrame * c.bobSpeed) * 2
    let rotation := c.rotation + c.rotationSpeed * dt
    let glowIntensity := 0.5 + Real.sin (animationFrame * 3) * 0.3
    let pulseEffect := if c.pulseEffect > 0 then c.pulseEffect - dt * 3 else c.pulseEffect
    { c with animationFrame := animationFrame, bobOffset := bobOffset,
             rotation := rotation, glowIntensity := glowIntensity,
             pulseEffect := pulseEffect }

/-- `Collectible.collect()`: fails when inactive or already collected,
otherwise deactivates, marks collected, stamps `performance.now()`
(passed in as `now`) and triggers the pulse.  Returns the updated
collectible and the JS boolean result. -/
def Collectible.collect (now : ℝ) (c : Collectible) : Collectible × Bool :=
  if c.active = false ∨ c.collected = true then (c, false)
  else ({ c with active := false, collected := true, collectionTime := now,
                 pulseEffect := 1 }, true)

/-- The player record, with every field set by the `Player` constructor. -/
structure Player where
  x : ℝ
  y : ℝ
  width : ℝ
  height : ℝ
  dx : ℝ
  dy : ℝ
  gravity : ℝ
  jumpForce : ℝ
  maxSpeed : ℝ
  rotationSpeed : ℝ
  onGround : Bool
  wasOnGround : Bool
  angle : ℝ
  flashTime : ℝ
  isDead : Bool
  isRespawning : Bool
  particles : List Particle
  lastSafePlatform : Option Platform
  respawnX : ℝ
  respawnY : ℝ
  consecutiveDeaths : ℤ
  lastDeathPlatformId : ℤ

/-- The `Player` constructor. -/
def Player.init : Player :=
  { x := 150, y := 100, width := 40, height := 40, dx := 300, dy := 0,
    gravity := 1800, jumpForce := -700, maxSpeed := 300, rotationSpeed := 6,
    onGround := false, wasOnGround := false, angle := 0, flashTime := 0,
    isDead := false, isRespawning := false, particles := [],
    lastSafePlatform := none, respawnX := 150, respawnY := 100,
    consecutiveDeaths := 0, lastDeathPlatformId := -1 }

/-- `Player.updateParticles(dt)`: advances each particle (position with the
pre-update vertical velocity, then gravity at a 0.8 factor, spin, life
decay) and prunes particles whose life reached zero. -/
def Player.updateParticles (dt : ℝ) (p : Player) : Player :=
  let moved := p.particles.map fun q =>
    { q with x := q.x + q.dx * dt, y := q.y + q.dy * dt,
             dy := q.dy + p.gravity * 0.8 * dt,
             angle := q.angle + q.angleV * dt,
             life := q.life - dt }
  { p with particles := moved.filter fun q => q.life > 0 }

/-- `Player.update(dt)`: while dead or respawning only particles advance;
otherwise gravity and position integrate, the angle snaps to the nearest
right angle when grounded or accumulates otherwise, a positive flash timer
decays at 60 units per second, the grounded flags roll over, and particles
advance. -/
def Player.update (dt : ℝ) (p : Player) : Player :=
  if p.isDead = true ∨ p.isRespawning = true then p.updateParticles dt
  else
    let dy := p.dy + p.gravity * dt
    let x := p.x + p.dx * dt
    let y := p.y + dy * dt
    let angle :=
      if p.onGround = true then
        ((round (p.angle / (Real.pi / 2)) : ℤ) : ℝ) * (Real.pi / 2)
      else p.angle + p.rotationSpeed * dt
    let flashTime := if p.flashTime > 0 then p.flashTime - dt * 60 else p.flashTime
    Player.updateParticles dt
      { p with dy := dy, x := x, y := y, angle := angle, flashTime := flashTime,
               wasOnGround := p.onGround, onGround := false }

/-- `Player.jump()`: succeeds only if grounded, not dead and not
respawning; on success sets `dy` to the jump force, clears grounded and
returns true, otherwise returns false with the state untouched. -/
def Player.jump (p : Player) : Player × Bool :=
  if p.onGround = true ∧ p.isDead = false ∧ p.isRespawning = false then
    ({ p with dy := p.jumpForce, onGround := false }, true)
  else (p, false)

/-- `Player.createExplosion()`: replaces the particle list with a 3×3 grid
of particles; the three `Math.random()` draws of particle `(i, j)` are the
stream entries `3*(3*i+j)`, `3*(3*i+j)+1` and `3*(3*i+j)+2`, in the order
the source consumes them (dx, dy, angleV). -/
def Player.createExplosion (rand : ℕ → ℝ) (p : Player) : Player :=
  let particleSize := p.width / 3
  let mk : ℕ → ℕ → Particle := fun i j =>
    { x := p.x + (i : ℝ) * particleSize, y := p.y + (j : ℝ) * particleSize,
      width := particleSize, height := particleSize,
      dx := ((i : ℝ) - 1) * 200 + (rand (3 * (3 * i + j)) - 0.5) * 150,
      dy := ((j : ℝ) - 1) * 200 + (rand (3 * (3 * i + j) + 1) - 0.5) * 150 - 250,
      angle := 0,
      angleV := (rand (3 * (3 * i + j) + 2) - 0.5) * 20,
      life := 1 }
  { p with particles := (List.range 3).flatMap fun i => (List.range 3).map fun j => mk i j }

/-- `Player.die()`: no-op when already dead; otherwise sets the dead flag,
spawns the explosion, and updates the consecutive-death bookkeeping
against the last safe platform's id (sentinel -1 when there is none). -/
def Player.die (rand : ℕ → ℝ) (p : Player) : Player :=
  if p.isDead = true then p
  else
    let p1 := Player.createExplosion rand { p with isDead := true }
    match p1.lastSafePlatform with
    | some plat =>
      if plat.id = p1.lastDeathPlatformId then
        { p1 with consecutiveDeaths := p1.consecutiveDeaths + 1 }
      else
        { p1 with consecutiveDeaths := 1, lastDeathPlatformId := plat.id }
    | none => { p1 with consecutiveDeaths := 1, lastDeathPlatformId := -1 }

/-- `Player.handlePlatformCollision(platform)`: landing, ceiling-bump,
then side-contact resolution, returning the updated player and the JS
boolean result; the lethal side-contact arm calls `die()`. -/
def Player.handlePlatformCollision (rand : ℕ → ℝ) (platform : Platform)
    (p : Player) : Player × Bool :=
  if p.dy ≥ 0 ∧ p.y + p.height ≥ platform.y ∧
     p.y + p.height < platform.y + platform.height then
    ({ p with y := platform.y - p.height, dy := 0, onGround := true,
              lastSafePlatform := some platform }, true)
  else if p.dy < 0 ∧ p.y < platform.y + platform.height ∧ p.y > platform.y then
    ({ p with y := platform.y + platform.height, dy := 0 }, true)
  else if p.x + p.width > platform.x ∧ p.x < platform.x + platform.width then
    if p.dx > 0 ∧ p.x + p.width ≥ platform.x ∧
       p.y + p.height > platform.y ∧ p.y < platform.y + platform.height then
      let ledgeHeight := p.y + p.height - platform.y
      if ledgeHeight > 0 ∧ ledgeHeight < p.height / 2 ∧ p.dy ≥ 0 then
        ({ p with y := platform.y - p.height, dy := -120, onGround := true,
                  lastSafePlatform := some platform }, true)
      else (p.die rand, false)
    else (p, false)
  else (p, false)

/-- `Player.handleCollectibleCollision(collectible)`: false when the
collectible is inactive; otherwise compares the `Math.hypot` distance from
the player's center to the collectible against half the player's width
plus the collectible size, and on a hit deactivates the collectible and
sets the flash timer to 10.  Returns the updated player, the updated
collectible (the JS code mutates the argument) and the boolean result. -/
def Player.handleCollectibleCollision (c : Collectible) (p : Player) :
    Player × Collectible × Bool :=
  if c.active = false then (p, c, false)
  else
    let dist := Real.sqrt ((p.x + p.width / 2 - c.x) ^ 2 +
                           (p.y + p.height / 2 - c.y) ^ 2)
    if dist < p.width / 2 + c.size then
      ({ p with flashTime := 10 }, { c with active := false }, true)
    else (p, c, false)

/-- A transient collection-effect record pushed by
`CollectibleManager.collectItem`. -/
structure CollectionEffect where
  x : ℝ
  y : ℝ
  value : ℝ
  life : ℝ
  type : String

/-- The result record of `CollectibleManager.getCollectionProgress`. -/
structure CollectionProgress where
  collected : ℕ
  total : ℕ
  percentage : ℝ

/-- The collectible manager: owned collectibles, aggregate counters and the
transient collection-effect list. -/
structure CollectibleManager where
  collectibles : List Collectible
  collectedCount : ℕ
  totalCount : ℕ
  collectionEffects : List CollectionEffect

/-- The `CollectibleManager` constructor. -/
def CollectibleManager.init : CollectibleManager :=
  { collectibles := [], collectedCount := 0, totalCount := 0,
    collectionEffects := [] }

/-- `CollectibleManager.addCollectible(x, y, type)`. -/
def CollectibleManager.addCollectible (m : CollectibleManager) (x y : ℝ)
    (type : String) : CollectibleManager :=
  { m with collectibles := m.collectibles ++ [Collectible.make x y type],
           totalCount := m.totalCount + 1 }

/-- `CollectibleManager.addCollectibles(positions, type)`: positions are
`{x, y}` objects, modelled as pairs. -/
def CollectibleManager.addCollectibles (m : CollectibleManager)
    (positions : List (ℝ × ℝ)) (type : String) : CollectibleManager :=
  positions.foldl (fun acc pos => acc.addCollectible pos.1 pos.2 type) m

/-- `CollectibleManager.update(dt)`: per-entity update, then the effect
filter that first decrements each effect's life and keeps it while the
life stays positive. -/
def CollectibleManager.update (dt : ℝ) (m : CollectibleManager) :
    CollectibleManager :=
  { m with collectibles := m.collectibles.map (Collectible.update dt),
           collectionEffects :=
             (m.collectionEffects.map fun e => { e with life := e.life - dt }).filter
               fun e => e.life > 0 }

/-- `CollectibleManager.collectItem(collectible)`, for the owned
collectible at index `i` (the JS caller passes the object by reference):
if `collect()` succeeds, bumps the collected count and appends the
collection-effect record with unit life. -/
def CollectibleManager.collectItem (now : ℝ) (i : ℕ) (m : CollectibleManager) :
    CollectibleManager :=
  match m.collectibles[i]? with
  | none => m
  | some c =>
    let r := Collectible.collect now c
    if r.2 = true then
      { m with collectibles := m.collectibles.set i r.1,
               collectedCount := m.collectedCount + 1,
               collectionEffects := m.collectionEffects ++
                 [{ x := c.x, y := c.y, value := c.value, life := 1,
                    type := c.type }] }
    else { m with collectibles := m.collectibles.set i r.1 }

/-- The body of the `forEach` in
`CollectibleManager.checkPlayerCollision`, for the collectible at index
`i`: the player's collision check runs only when the collectible is
active (short-circuit of `&&`), its mutations of the collectible and of
the player's flash timer are stored back, and on a hit `collectItem` runs
on the already-mutated collectible. -/
def CollectibleManager.checkOne (now : ℝ) (i : ℕ)
    (s : Player × CollectibleManager) : Player × CollectibleManager :=
  match s.2.collectibles[i]? with
  | none => s
  | some c =>
    if c.active = true then
      let r := s.1.handleCollectibleCollision c
      let m1 := { s.2 with collectibles := s.2.collectibles.set i r.2.1 }
      if r.2.2 = true then (r.1, CollectibleManager.collectItem now i m1)
      else (r.1, m1)
    else s

/-- `CollectibleManager.checkPlayerCollision(player)`: the `forEach` over
the owned collectibles, threading the player and manager state. -/
def CollectibleManager.checkPlayerCollision (now : ℝ) (pl : Player)
    (m : CollectibleManager) : Player × CollectibleManager :=
  (List.range m.collectibles.length).foldl
    (fun s i => CollectibleManager.checkOne now i s) (pl, m)

/-- `CollectibleManager.getCollectionProgress()`. -/
def CollectibleManager.getCollectionProgress (m : CollectibleManager) :
    CollectionProgress :=
  { collected := m.collectedCount, total := m.totalCount,
    percentage := if m.totalCount > 0 then
        ((m.collectedCount : ℝ) / (m.totalCount : ℝ)) * 100
      else 0 }

/-- `CollectibleManager.reset()`: reactivates every collectible, clears the
collected flags, the collected count and the effect list (the total count
stays). -/
def CollectibleManager.reset (m : CollectibleManager) : CollectibleManager :=
  { m with collectibles := m.collectibles.map fun c =>
             { c with active := true, collected := false },
           collectedCount := 0, collectionEffects := [] }

/-- `CollectibleManager.clear()`. -/
def CollectibleManager.clear (_ : CollectibleManager) : CollectibleManager :=
  { collectibles := [], collectedCount := 0, totalCount := 0,
    collectionEffects := [] }

/-- The camera record (the parallax table plays no part in the claims'
operations and is omitted; it is a constant per-layer speed map). -/
structure Camera where
  x : ℝ
  y : ℝ
  targetX : ℝ
  targetY : ℝ
  smoothness : ℝ
  offsetX : ℝ
  offsetY : ℝ
  width : ℝ
  height : ℝ
  renderBuffer : ℝ

/-- The `Camera` constructor. -/
def Camera.init : Camera :=
  { x := 0, y := 0, targetX := 0, targetY := 0, smoothness := 0.05,
    offsetX := 0, offsetY := 0, width := 0, height := 0, renderBuffer := 0 }

/-- `Camera.update(dt)`: frame-rate-compensated exponential smoothing, with
the blend factor `1 - (1 - smoothness)^(dt*60)` (`Math.pow` on a
non-negative base modelled as the real power). -/
def Camera.update (dt : ℝ) (c : Camera) : Camera :=
  let smoothFactor := 1 - (1 - c.smoothness) ^ (dt * 60)
  { c with x := c.x + (c.targetX - c.x) * smoothFactor,
           y := c.y + (c.targetY - c.y) * smoothFactor }

/-- `Camera.follow(target)`. -/
def Camera.follow (tx ty : ℝ) (c : Camera) : Camera :=
  { c with targetX := tx - c.offsetX, targetY := ty - c.offsetY }

/-- `Camera.setSmoothness(smoothness)`: clamps into [0, 1]. -/
def Camera.setSmoothness (s : ℝ) (c : Camera) : Camera :=
  { c with smoothness := max 0 (min 1 s) }

/-- The game-statistics record. -/
structure GameStats where
  score : ℝ
  currentLevel : ℕ
  totalDeaths : ℕ
  levelDeaths : ℕ
  pixelsCollected : ℕ
  totalPixelsInLevel : ℕ
  levelStartTime : ℝ
  consecutiveDeaths : ℕ

/-- The `this.states` enumeration of `GameState`, as a lookup from the
member name to the enumerated value (`none` for keys the object does not
have; every present value is a non-empty string, hence truthy). -/
def GameState.states : String → Option String
  | "MAIN_MENU" => some ("mainMenu")
  | "PLAYING" => some ("playing")
  | "PAUSED" => some ("paused")
  | "DEAD" => some ("dead")
  | "LEVEL_COMPLETE" => some ("levelComplete")
  | "LEVEL_READY" => some ("levelReady")
  | "ENTERING_PORTAL" => some ("enteringPortal")
  | "EXITING" => some ("exiting")
  | _ => none

/-- The member names of the `states` enumeration. -/
def GameState.stateNames : List String :=
  ["MAIN_MENU", "PLAYING", "PAUSED", "DEAD", "LEVEL_COMPLETE",
   "LEVEL_READY", "ENTERING_PORTAL", "EXITING"]

/-- JS `String.prototype.toUpperCase` on the ASCII state names: uppercases
each character. -/
def jsToUpper (s : String) : String := ⟨s.data.map Char.toUpper⟩

/-- The game-state machine record. -/
structure GameState where
  currentState : String
  stats : GameStats
  timeScale : ℝ
  timeScaleTarget : ℝ

/-- The `GameState` constructor. -/
def GameState.init : GameState :=
  { currentState := "mainMenu",
    stats := { score := 0, currentLevel := 1, totalDeaths := 0,
               levelDeaths := 0, pixelsCollected := 0,
               totalPixelsInLevel := 0, levelStartTime := 0,
               consecutiveDeaths := 0 },
    timeScale := 1.0, timeScaleTarget := 1.0 }

/-- `GameState.handleStateChange()`: the switch on `currentState`
(`performance.now()` passed in as `now` for the LevelReady arm). -/
def GameState.handleStateChange (now : ℝ) (g : GameState) : GameState :=
  if g.currentState = "playing" then { g with timeScaleTarget := 1.0 }
  else if g.currentState = "paused" then { g with timeScaleTarget := 0.0 }
  else if g.currentState = "dead" then
    { g with stats := { g.stats with
        levelDeaths := g.stats.levelDeaths + 1,
        totalDeaths := g.stats.totalDeaths + 1,
        consecutiveDeaths := g.stats.consecutiveDeaths + 1 } }
  else if g.currentState = "levelComplete" then { g with timeScaleTarget := 0.0 }
  else if g.currentState = "levelReady" then
    { g with timeScaleTarget := 1.0,
             stats := { g.stats with levelStartTime := now } }
  else g

/-- `GameState.setGameState(state)`: looks the uppercased argument up in
the `states` enumeration, stores the enumerated value on a hit and the
argument verbatim otherwise, then runs `handleStateChange()` once. -/
def GameState.setGameState (now : ℝ) (state : String) (g : GameState) :
    GameState :=
  let g1 := match GameState.states (jsToUpper state) with
    | some v => { g with currentState := v }
    | none => { g with currentState := state }
  GameState.handleStateChange now g1

/-- A dead player, used as a concrete input. -/
def deadPlayer : Player := { Player.init with isDead := true }

/-- A platform with id 7, used as a concrete input. -/
def witnessPlatform : Platform :=
  { x := 140, y := 100, width := 50, height := 5, id := 7 }

/-- An alive player whose last safe platform is `witnessPlatform` and whose
last death was recorded against the same id. -/
def aliveOnPlat : Player :=
  { Player.init with lastSafePlatform := some witnessPlatform,
                     lastDeathPlatformId := 7 }

/-- An alive, non-respawning player with a positive flash timer. -/
def flashPlayer : Player := { Player.init with flashTime := 1 }

/-- A player positioned for a shallow ledge clip against
`witnessPlatform`: its bottom edge sits 10 units below the platform top,
less than half its height of 40. -/
def grabPlayer : Player := { Player.init with x := 120, y := 70 }

/-- A player positioned for a side hit exactly at the half-height
boundary against `witnessPlatform`: its bottom edge sits 20 units below
the platform top, exactly half its height of 40. -/
def boundaryPlayer : Player := { Player.init with x := 120, y := 80 }

end

/-- Helper: `die()` always leaves the dead flag set. -/
theorem Player.die_isDead (p : Player) (rand : ℕ → ℝ) :
    (p.die rand).isDead = true := by
  unfold Player.die Player.createExplosion
  by_cases h : p.isDead = true
  · simp [h]
  · rcases hp : p.lastSafePlatform with _ | plat <;> simp [h, hp] <;> split <;> simp

/-- C3: `jump()` returns true iff the player is grounded, not dead and not
respawning; on success it sets `dy` to the jump force and clears the
grounded flag, and on failure the player state is unchanged. -/
theorem jump_spec (p : Player) :
    ((p.jump).2 = true ↔
      (p.onGround = true ∧ p.isDead = false ∧ p.isRespawning = false)) ∧
    ((p.jump).2 = true →
      (p.jump).1 = { p with dy := p.jumpForce, onGround := false }) ∧
    ((p.jump).2 = false → (p.jump).1 = p) := by
  unfold Player.jump
  by_cases h : p.onGround = true ∧ p.isDead = false ∧ p.isRespawning = false
  · simp [h]
  · simp [h]

/-- Witness for C3: on the freshly constructed (airborne) player, `jump()`
fails and leaves the state unchanged. -/
theorem jump_spec_witness :
    (Player.init.jump).2 = false ∧ (Player.init.jump).1 = Player.init := by
  have h2 : (Player.init.jump).2 = false := by
    simp [Player.jump, Player.init]
  exact ⟨h2, (jump_spec Player.init).2.2 h2⟩

/-- C4: for every `dt ≥ 0`, while dead or respawning, `update(dt)` leaves
position, velocity, angle, flash timer and the grounded flags unchanged and
mutates only the particle list. -/
theorem update_dead_or_respawning_frozen (p : Player) (dt : ℝ) (hdt : 0 ≤ dt)
    (h : p.isDead = true ∨ p.isRespawning = true) :
    (p.update dt).x = p.x ∧ (p.update dt).y = p.y ∧
    (p.update dt).dx = p.dx ∧ (p.update dt).dy = p.dy ∧
    (p.update dt).angle = p.angle ∧ (p.update dt).flashTime = p.flashTime ∧
    (p.update dt).onGround = p.onGround ∧
    (p.update dt).wasOnGround = p.wasOnGround ∧
    p.update dt = { p with particles := (p.update dt).particles } := by
  unfold Player.update
  rw [if_pos h]
  unfold Player.updateParticles
  simp

/-- Witness for C4: a dead player updated with `dt = 1` keeps its position. -/
theorem update_dead_or_respawning_frozen_witness :
    (deadPlayer.update 1).x = deadPlayer.x ∧
    (deadPlayer.update 1).dy = deadPlayer.dy :=
  ⟨(update_dead_or_respawning_frozen deadPlayer 1 (by norm_num) (Or.inl rfl)).1,
   (update_dead_or_respawning_frozen deadPlayer 1 (by norm_num) (Or.inl rfl)).2.2.2.1⟩

/-- C5: `die()` is idempotent — on a player whose dead flag is already set
it changes nothing at all (in particular no new particles and no
consecutive-death bookkeeping changes). -/
theorem die_idempotent (p : Player) (rand : ℕ → ℝ) (h : p.isDead = true) :
    p.die rand = p := by
  unfold Player.die
  rw [if_pos h]

/-- Witness for C5: a second `die()` on the dead player is the identity. -/
theorem die_idempotent_witness :
    deadPlayer.die (fun _ => 0) = deadPlayer :=
  die_idempotent deadPlayer (fun _ => 0) rfl

/-- C6: when `die()` takes effect on an alive player, a last safe platform
whose id matches the recorded last-death id increments the counter (and
keeps the recorded id); a mismatching id resets the counter to 1 and
records the platform's id; no last safe platform resets the counter to 1
and records the sentinel -1. -/
theorem die_consecutive_deaths (p : Player) (rand : ℕ → ℝ)
    (h : p.isDead = false) :
    (∀ plat : Platform, p.lastSafePlatform = some plat →
       plat.id = p.lastDeathPlatformId →
       (p.die rand).consecutiveDeaths = p.consecutiveDeaths + 1 ∧
       (p.die rand).lastDeathPlatformId = p.lastDeathPlatformId) ∧
    (∀ plat : Platform, p.lastSafePlatform = some plat →
       plat.id ≠ p.lastDeathPlatformId →
       (p.die rand).consecutiveDeaths = 1 ∧
       (p.die rand).lastDeathPlatformId = plat.id) ∧
    (p.lastSafePlatform = none →
       (p.die rand).consecutiveDeaths = 1 ∧
       (p.die rand).lastDeathPlatformId = -1) := by
  refine ⟨?_, ?_, ?_⟩
  · intro plat hsp hid
    unfold Player.die Player.createExplosion
    simp [h, hsp, hid]
  · intro plat hsp hid
    unfold Player.die Player.createExplosion
    simp [h, hsp, hid]
  · intro hnone
    unfold Player.die Player.createExplosion
    simp [h, hnone]

/-- Witness for C6: dying on `aliveOnPlat`, whose last safe platform id 7
matches the recorded last-death id, increments the counter. -/
theorem die_consecutive_deaths_witness :
    (aliveOnPlat.die (fun _ => 0)).consecutiveDeaths =
      aliveOnPlat.consecutiveDeaths + 1 ∧
    (aliveOnPlat.die (fun _ => 0)).lastDeathPlatformId =
      aliveOnPlat.lastDeathPlatformId :=
  (die_consecutive_deaths aliveOnPlat (fun _ => 0) rfl).1 witnessPlatform rfl rfl

/-- Counterexample for C9: on an alive, non-respawning player with flash
timer 1, `update(1)` drives the flash timer strictly below zero, against
the claim that it never goes below 0 as a result of `update`. -/
theorem update_flash_goes_negative :
    flashPlayer.isDead = false ∧ flashPlayer.isRespawning = false ∧
    flashPlayer.flashTime > 0 ∧ (flashPlayer.update 1).flashTime < 0 := by
  refine ⟨rfl, rfl, by norm_num [flashPlayer, Player.init], ?_⟩
  unfold Player.update Player.updateParticles
  norm_num [flashPlayer, Player.init]

/-- C9 amended: for every `dt ≥ 0` and every alive, non-respawning player,
`update(dt)` subtracts `60*dt` from a positive flash timer — without
clamping, so the result may be negative — and a flash timer already at 0
stays at 0. -/
theorem update_flash_decay (p : Player) (dt : ℝ) (hdt : 0 ≤ dt)
    (hd : p.isDead = false) (hr : p.isRespawning = false) :
    (p.flashTime > 0 → (p.update dt).flashTime = p.flashTime - dt * 60) ∧
    (p.flashTime = 0 → (p.update dt).flashTime = 0) := by
  unfold Player.update Player.updateParticles
  rw [if_neg (by simp [hd, hr])]
  constructor
  · intro hf
    simp [if_pos hf]
  · intro hf
    rw [hf]
    simp

/-- Witness for C9 amended: `flashPlayer` with `dt = 2` ends at `1 - 120`. -/
theorem update_flash_decay_witness :
    (flashPlayer.update 2).flashTime = flashPlayer.flashTime - 2 * 60 :=
  (update_flash_decay flashPlayer 2 (by norm_num) rfl rfl).1
    (by norm_num [flashPlayer, Player.init])

/-- C2: in the side-contact branch of `handlePlatformCollision` (landing
and ceiling branches not applicable, horizontal overlap and rightward
approach present), a penetration `p.y + p.height - platform.y` strictly
between 0 and half the player's height with the player not ascending is a
ledge grab (snap on top, small upward bounce of -120, grounded, platform
recorded as last safe); a penetration of at least half the height —
including exactly half — is lethal: `die()` runs and the call returns
false. -/
theorem handlePlatformCollision_side (rand : ℕ → ℝ) (platform : Platform)
    (p : Player)
    (hL : ¬(p.dy ≥ 0 ∧ p.y + p.height ≥ platform.y ∧
            p.y + p.height < platform.y + platform.height))
    (hC : ¬(p.dy < 0 ∧ p.y < platform.y + platform.height ∧ p.y > platform.y))
    (hX : p.x + p.width > platform.x ∧ p.x < platform.x + platform.width)
    (hS : p.dx > 0 ∧ p.x + p.width ≥ platform.x ∧
          p.y + p.height > platform.y ∧ p.y < platform.y + platform.height) :
    (p.y + p.height - platform.y > 0 →
     p.y + p.height - platform.y < p.height / 2 → p.dy ≥ 0 →
       p.handlePlatformCollision rand platform =
         ({ p with y := platform.y - p.height, dy := -120, onGround := true,
                   lastSafePlatform := some platform }, true)) ∧
    (p.height / 2 ≤ p.y + p.height - platform.y →
       p.handlePlatformCollision rand platform = (p.die rand, false) ∧
       (p.handlePlatformCollision rand platform).1.isDead = true ∧
       (p.handlePlatformCollision rand platform).2 = false) := by
  unfold Player.handlePlatformCollision
  rw [if_neg hL, if_neg hC, if_pos hX, if_pos hS]
  constructor
  · intro h1 h2 h3
    rw [if_pos ⟨h1, h2, h3⟩]
  · intro hge
    have hcond : ¬(p.y + p.height - platform.y > 0 ∧
        p.y + p.height - platform.y < p.height / 2 ∧ p.dy ≥ 0) := by
      rintro ⟨-, hlt, -⟩
      linarith
    rw [if_neg hcond]
    exact ⟨rfl, Player.die_isDead p rand, rfl⟩

/-- Witness for C2: `grabPlayer` (penetration 10 < 20) gets a ledge grab
on `witnessPlatform`, and `boundaryPlayer` (penetration exactly 20 = half
the height) dies. -/
theorem handlePlatformCollision_side_witness :
    (grabPlayer.handlePlatformCollision (fun _ => 0) witnessPlatform =
      ({ grabPlayer with y := witnessPlatform.y - grabPlayer.height,
                         dy := -120, onGround := true,
                         lastSafePlatform := some witnessPlatform }, true)) ∧
    ((boundaryPlayer.handlePlatformCollision (fun _ => 0) witnessPlatform).1.isDead
       = true ∧
     (boundaryPlayer.handlePlatformCollision (fun _ => 0) witnessPlatform).2
       = false) := by
  constructor
  · exact (handlePlatformCollision_side (fun _ => 0) witnessPlatform grabPlayer
      (by norm_num [grabPlayer, Player.init, witnessPlatform])
      (by norm_num [grabPlayer, Player.init, witnessPlatform])
      (by norm_num [grabPlayer, Player.init, witnessPlatform])
      (by norm_num [grabPlayer, Player.init, witnessPlatform])).1
      (by norm_num [grabPlayer, Player.init, witnessPlatform])
      (by norm_num [grabPlayer, Player.init, witnessPlatform])
      (by norm_num [grabPlayer, Player.init])
  · exact ((handlePlatformCollision_side (fun _ => 0) witnessPlatform boundaryPlayer
      (by norm_num [boundaryPlayer, Player.init, witnessPlatform])
      (by norm_num [boundaryPlayer, Player.init, witnessPlatform])
      (by norm_num [boundaryPlayer, Player.init, witnessPlatform])
      (by norm_num [boundaryPlayer, Player.init, witnessPlatform])).2
      (by norm_num [boundaryPlayer, Player.init, witnessPlatform])).2

/-- Helper: a blend of `a` toward `b` by a factor in [0, 1] stays between
`a` and `b` and does not increase the distance to `b`. -/
theorem blend_between (a b f : ℝ) (hf0 : 0 ≤ f) (hf1 : f ≤ 1) :
    min a b ≤ a + (b - a) * f ∧ a + (b - a) * f ≤ max a b ∧
    |b - (a + (b - a) * f)| ≤ |b - a| := by
  rcases le_total a b with hab | hab
  · have h1 : 0 ≤ (b - a) * f := mul_nonneg (by linarith) hf0
    have h2 : (b - a) * f ≤ b - a := by nlinarith
    refine ⟨le_trans (min_le_left a b) (by linarith),
            le_trans (by linarith : a + (b - a) * f ≤ b) (le_max_right a b), ?_⟩
    rw [abs_of_nonneg (by linarith), abs_of_nonneg (by linarith)]
    linarith
  · have h1 : (b - a) * f ≤ 0 :=
      mul_nonpos_of_nonpos_of_nonneg (by linarith) hf0
    have h2 : b - a ≤ (b - a) * f := by nlinarith
    refine ⟨le_trans (min_le_right a b) (by linarith),
            le_trans (by linarith : a + (b - a) * f ≤ a) (le_max_left a b), ?_⟩
    rw [abs_of_nonpos (by linarith), abs_of_nonpos (by linarith)]
    linarith

/-- C8: for a camera with smoothing coefficient in [0, 1] and any dt > 0,
one `update(dt)` moves each axis to a point between the previous position
and the target, never passing it, and never increases the distance to the
target — so repeated updates against a constant target approach it
monotonically without overshoot. -/
theorem camera_update_no_overshoot (c : Camera) (dt : ℝ)
    (h0 : 0 ≤ c.smoothness) (h1 : c.smoothness ≤ 1) (hdt : 0 < dt) :
    (min c.x c.targetX ≤ (c.update dt).x ∧
     (c.update dt).x ≤ max c.x c.targetX ∧
     |c.targetX - (c.update dt).x| ≤ |c.targetX - c.x|) ∧
    (min c.y c.targetY ≤ (c.update dt).y ∧
     (c.update dt).y ≤ max c.y c.targetY ∧
     |c.targetY - (c.update dt).y| ≤ |c.targetY - c.y|) := by
  have hb0 : (0 : ℝ) ≤ 1 - c.smoothness := by linarith
  have hb1 : 1 - c.smoothness ≤ 1 := by linarith
  have he : (0 : ℝ) ≤ dt * 60 := by positivity
  have hp0 : 0 ≤ (1 - c.smoothness) ^ (dt * 60) := Real.rpow_nonneg hb0 _
  have hp1 : (1 - c.smoothness) ^ (dt * 60) ≤ 1 := Real.rpow_le_one hb0 hb1 he
  have hf0 : 0 ≤ 1 - (1 - c.smoothness) ^ (dt * 60) := by linarith
  have hf1 : 1 - (1 - c.smoothness) ^ (dt * 60) ≤ 1 := by linarith
  have hx : (c.update dt).x =
      c.x + (c.targetX - c.x) * (1 - (1 - c.smoothness) ^ (dt * 60)) := by
    simp [Camera.update]
  have hy : (c.update dt).y =
      c.y + (c.targetY - c.y) * (1 - (1 - c.smoothness) ^ (dt * 60)) := by
    simp [Camera.update]
  rw [hx, hy]
  exact ⟨blend_between c.x c.targetX _ hf0 hf1,
         blend_between c.y c.targetY _ hf0 hf1⟩

/-- Witness for C8: the freshly constructed camera (smoothness 0.05) with
`dt = 1` stays between its position and its target on both axes. -/
theorem camera_update_no_overshoot_witness :
    (min Camera.init.x Camera.init.targetX ≤ (Camera.init.update 1).x ∧
     (Camera.init.update 1).x ≤ max Camera.init.x Camera.init.targetX ∧
     |Camera.init.targetX - (Camera.init.update 1).x| ≤
       |Camera.init.targetX - Camera.init.x|) ∧
    (min Camera.init.y Camera.init.targetY ≤ (Camera.init.update 1).y ∧
     (Camera.init.update 1).y ≤ max Camera.init.y Camera.init.targetY ∧
     |Camera.init.targetY - (Camera.init.update 1).y| ≤
       |Camera.init.targetY - Camera.init.y|) :=
  camera_update_no_overshoot Camera.init 1
    (by norm_num [Camera.init]) (by norm_num [Camera.init]) (by norm_num)

/-- C7: for every member name of the `states` enumeration and every
letter-case variant of it, `setGameState` stores the canonical enumerated
value and then runs `handleStateChange` exactly once; a name whose
uppercasing is outside the enumeration is stored verbatim, again followed
by one `handleStateChange`. -/
theorem setGameState_case_insensitive (g : GameState) (now : ℝ) (s k : String)
    (hk : k ∈ GameState.stateNames) (hvar : jsToUpper s = k) :
    (∃ v, GameState.states k = some v ∧
      GameState.setGameState now s g =
        GameState.handleStateChange now { g with currentState := v }) ∧
    (∀ t : String, GameState.states (jsToUpper t) = none →
      GameState.setGameState now t g =
        GameState.handleStateChange now { g with currentState := t }) := by
  constructor
  · fin_cases hk <;>
      exact ⟨_, rfl, by simp only [GameState.setGameState, hvar]; rfl⟩
  · intro t ht
    simp only [GameState.setGameState, ht]

/-- Witness for C7: the lower-cased variant of the member name
LEVEL_COMPLETE is accepted and stored as the canonical value. -/
theorem setGameState_case_insensitive_witness :
    jsToUpper ("level_complete") = "LEVEL_COMPLETE" ∧
    ("LEVEL_COMPLETE") ∈ GameState.stateNames ∧
    (∃ v, GameState.states ("LEVEL_COMPLETE") = some v ∧
      GameState.setGameState 0 ("level_complete") GameState.init =
        GameState.handleStateChange 0
          { GameState.init with currentState := v }) :=
  ⟨by decide, by decide,
   (setGameState_case_insensitive GameState.init 0 ("level_complete")
     ("LEVEL_COMPLETE") (by decide) (by decide)).1⟩

/-- A pixel collectible placed exactly at the initial player's center
(170, 120), so the player's collision check certainly succeeds on it. -/
noncomputable def c1Collectible : Collectible := Collectible.make 170 120 ("pixel")

/-- A manager owning exactly `c1Collectible`. -/
noncomputable def c1Manager : CollectibleManager :=
  CollectibleManager.init.addCollectible 170 120 ("pixel")

/-- The number of owned collectibles whose collected flag is set. -/
def countCollected (l : List Collectible) : ℕ :=
  (l.filter fun c => c.collected).length

/-- The counter invariant of the collectible manager: the collected count
is the number of collected owned collectibles, and the total count is the
number of owned collectibles. -/
def InvCM (m : CollectibleManager) : Prop :=
  m.collectedCount = countCollected m.collectibles ∧
  m.totalCount = m.collectibles.length

/-- Manager states reachable from the constructor through the public
operations. -/
inductive ReachCM : CollectibleManager → Prop
  | init : ReachCM CollectibleManager.init
  | add (m : CollectibleManager) (x y : ℝ) (type : String) :
      ReachCM m → ReachCM (m.addCollectible x y type)
  | addMany (m : CollectibleManager) (ps : List (ℝ × ℝ)) (type : String) :
      ReachCM m → ReachCM (m.addCollectibles ps type)
  | upd (m : CollectibleManager) (dt : ℝ) :
      ReachCM m → ReachCM (CollectibleManager.update dt m)
  | check (m : CollectibleManager) (now : ℝ) (pl : Player) :
      ReachCM m → ReachCM (CollectibleManager.checkPlayerCollision now pl m).2
  | collect (m : CollectibleManager) (now : ℝ) (i : ℕ) :
      ReachCM m → ReachCM (CollectibleManager.collectItem now i m)
  | reset (m : CollectibleManager) : ReachCM m → ReachCM m.reset
  | clear (m : CollectibleManager) : ReachCM m → ReachCM m.clear

/-- Helper: `countCollected` over a cons. -/
theorem countCollected_cons (c : Collectible) (l : List Collectible) :
    countCollected (c :: l) =
      countCollected l + (if c.collected then 1 else 0) := by
  by_cases h : c.collected <;> simp [countCollected, h, Nat.add_comm]

/-- Helper: `countCollected` over an append. -/
theorem countCollected_append (l1 l2 : List Collectible) :
    countCollected (l1 ++ l2) = countCollected l1 + countCollected l2 := by
  simp [countCollected]

/-- Helper: how `countCollected` changes when one entry is replaced. -/
theorem countCollected_set (l : List Collectible) (i : ℕ) (a b : Collectible)
    (h : l[i]? = some a) :
    countCollected (l.set i b) + (if a.collected then 1 else 0) =
      countCollected l + (if b.collected then 1 else 0) := by
  induction l generalizing i with
  | nil => simp at h
  | cons hd tl ih =>
    cases i with
    | zero =>
      simp only [List.getElem?_cons_zero, Option.some.injEq] at h
      subst h
      simp only [List.set_cons_zero, countCollected_cons]
      omega
    | succ n =>
      simp only [List.getElem?_cons_succ] at h
      simp only [List.set_cons_succ, countCollected_cons]
      have := ih n h
      omega

/-- Helper: writing back the entry already present is the identity. -/
theorem list_set_self {α : Type} (l : List α) (i : ℕ) (a : α)
    (h : l[i]? = some a) : l.set i a = l := by
  induction l generalizing i with
  | nil => simp at h
  | cons hd tl ih =>
    cases i with
    | zero =>
      simp only [List.getElem?_cons_zero, Option.some.injEq] at h
      subst h
      simp
    | succ n =>
      simp only [List.getElem?_cons_succ] at h
      simp [ih n h]

/-- Helper: the collected count never exceeds the owned count. -/
theorem countCollected_le_length (l : List Collectible) :
    countCollected l ≤ l.length :=
  List.length_filter_le _ _

/-- Helper: the two sides of `Collectible.collect`. -/
theorem collect_spec (now : ℝ) (c : Collectible) :
    ((c.active = false ∨ c.collected = true) →
       Collectible.collect now c = (c, false)) ∧
    (¬(c.active = false ∨ c.collected = true) →
       Collectible.collect now c =
         ({ c with active := false, collected := true, collectionTime := now,
                   pulseEffect := 1 }, true)) := by
  unfold Collectible.collect
  constructor
  · intro h; rw [if_pos h]
  · intro h; rw [if_neg h]

/-- Helper: `Collectible.update` does not touch the collected flag. -/
theorem update_collected (dt : ℝ) (c : Collectible) :
    (Collectible.update dt c).collected = c.collected := by
  unfold Collectible.update
  split <;> simp

/-- Helper: the collision check never touches the collected flag of the
collectible it returns. -/
theorem hcc_collected (c : Collectible) (p : Player) :
    ((p.handleCollectibleCollision c).2.1).collected = c.collected := by
  unfold Player.handleCollectibleCollision
  split
  · rfl
  · dsimp only
    split <;> rfl

/-- Helper: `countCollected` is stable under a map that keeps the
collected flags. -/
theorem countCollected_map (l : List Collectible) (f : Collectible → Collectible)
    (h : ∀ c, (f c).collected = c.collected) :
    countCollected (l.map f) = countCollected l := by
  induction l with
  | nil => rfl
  | cons c l ih => simp [countCollected_cons, h, ih]

/-- Helper: the reset map clears every collected flag. -/
theorem countCollected_reset_map (l : List Collectible) :
    countCollected (l.map fun c =>
      { c with active := true, collected := false }) = 0 := by
  induction l with
  | nil => rfl
  | cons c l ih => simp [countCollected_cons, ih]

/-- Helper: `addCollectible` preserves the counter invariant. -/
theorem invCM_addCollectible (m : CollectibleManager) (x y : ℝ) (ty : String)
    (h : InvCM m) : InvCM (m.addCollectible x y ty) := by
  obtain ⟨h1, h2⟩ := h
  constructor
  · show m.collectedCount =
      countCollected (m.collectibles ++ [Collectible.make x y ty])
    rw [countCollected_append, h1]
    simp [countCollected, Collectible.make]
  · show m.totalCount + 1 = (m.collectibles ++ [Collectible.make x y ty]).length
    simp [h2]

/-- Helper: `addCollectibles` preserves the counter invariant. -/
theorem invCM_addCollectibles (ps : List (ℝ × ℝ)) (ty : String) :
    ∀ m : CollectibleManager, InvCM m → InvCM (m.addCollectibles ps ty) := by
  induction ps with
  | nil => intro m h; simpa [CollectibleManager.addCollectibles] using h
  | cons p ps ih =>
    intro m h
    have := ih (m.addCollectible p.1 p.2 ty) (invCM_addCollectible m p.1 p.2 ty h)
    simpa [CollectibleManager.addCollectibles] using this

/-- Helper: the per-frame update preserves the counter invariant. -/
theorem invCM_update (dt : ℝ) (m : CollectibleManager) (h : InvCM m) :
    InvCM (CollectibleManager.update dt m) := by
  obtain ⟨h1, h2⟩ := h
  constructor
  · simpa [CollectibleManager.update,
      countCollected_map _ _ (update_collected dt)] using h1
  · simpa [CollectibleManager.update] using h2

/-- Helper: `collectItem` preserves the counter invariant. -/
theorem invCM_collectItem (now : ℝ) (i : ℕ) (m : CollectibleManager)
    (h : InvCM m) : InvCM (CollectibleManager.collectItem now i m) := by
  obtain ⟨h1, h2⟩ := h
  cases hg : m.collectibles[i]? with
  | none => simpa [CollectibleManager.collectItem, hg] using And.intro h1 h2
  | some c =>
    by_cases hc : c.active = false ∨ c.collected = true
    · have hr := (collect_spec now c).1 hc
      have hself : m.collectibles.set i c = m.collectibles :=
        list_set_self m.collectibles i c hg
      constructor
      · simpa [CollectibleManager.collectItem, hg, hr, hself] using h1
      · simpa [CollectibleManager.collectItem, hg, hr, hself] using h2
    · have hr := (collect_spec now c).2 hc
      have hcol : c.collected = false := by
        cases hb : c.collected
        · rfl
        · exact absurd (Or.inr hb) hc
      have hset := countCollected_set m.collectibles i c
        { c with active := false, collected := true, collectionTime := now,
                 pulseEffect := 1 } hg
      rw [hcol] at hset
      simp only [if_false, Bool.false_eq_true] at hset
      constructor
      · have : countCollected (m.collectibles.set i
            { c with active := false, collected := true, collectionTime := now,
                     pulseEffect := 1 }) = countCollected m.collectibles + 1 := by
          simpa using hset
        simp [CollectibleManager.collectItem, hg, hr, this, h1]
      · simp [CollectibleManager.collectItem, hg, hr, h2]

/-- Helper: one `forEach` step of `checkPlayerCollision` preserves the
counter invariant. -/
theorem invCM_checkOne (now : ℝ) (i : ℕ) (s : Player × CollectibleManager)
    (h : InvCM s.2) : InvCM (CollectibleManager.checkOne now i s).2 := by
  obtain ⟨pl, m⟩ := s
  cases hg : m.collectibles[i]? with
  | none => simpa [CollectibleManager.checkOne, hg] using h
  | some c =>
    by_cases ha : c.active = true
    · have hm1 : InvCM { m with
          collectibles := m.collectibles.set i (pl.handleCollectibleCollision c).2.1 } := by
        have hset := countCollected_set m.collectibles i c
          (pl.handleCollectibleCollision c).2.1 hg
        rw [hcc_collected c pl] at hset
        have hcc : countCollected
            (m.collectibles.set i (pl.handleCollectibleCollision c).2.1) =
            countCollected m.collectibles := by omega
        exact ⟨by simpa [hcc] using h.1, by simpa using h.2⟩
      by_cases hhit : (pl.handleCollectibleCollision c).2.2 = true
      · have hfin : InvCM (CollectibleManager.collectItem now i { m with
            collectibles := m.collectibles.set i (pl.handleCollectibleCollision c).2.1 }) :=
          invCM_collectItem now i _ hm1
        simpa [CollectibleManager.checkOne, hg, ha, hhit] using hfin
      · simpa [CollectibleManager.checkOne, hg, ha, hhit] using hm1
    · simpa [CollectibleManager.checkOne, hg, ha] using h

/-- Helper: the whole `forEach` fold preserves the counter invariant. -/
theorem invCM_checkFold (now : ℝ) (l : List ℕ) :
    ∀ s : Player × CollectibleManager, InvCM s.2 →
      InvCM ((l.foldl (fun s i => CollectibleManager.checkOne now i s) s)).2 := by
  induction l with
  | nil => intro s h; simpa using h
  | cons j l ih =>
    intro s h
    simp only [List.foldl_cons]
    exact ih _ (invCM_checkOne now j s h)

/-- Helper: `checkPlayerCollision` preserves the counter invariant. -/
theorem invCM_checkPlayerCollision (now : ℝ) (pl : Player)
    (m : CollectibleManager) (h : InvCM m) :
    InvCM (CollectibleManager.checkPlayerCollision now pl m).2 :=
  invCM_checkFold now (List.range m.collectibles.length) (pl, m) h

/-- Helper: `reset` preserves the counter invariant. -/
theorem invCM_reset (m : CollectibleManager) (h : InvCM m) : InvCM m.reset := by
  constructor
  · show (0 : ℕ) = countCollected (m.collectibles.map fun c =>
      { c with active := true, collected := false })
    rw [countCollected_reset_map]
  · simpa [CollectibleManager.reset] using h.2

/-- Helper: `clear` restores the counter invariant trivially. -/
theorem invCM_clear (m : CollectibleManager) (_ : InvCM m) : InvCM m.clear :=
  ⟨rfl, rfl⟩

/-- C10: in every manager state reachable from the constructor through
`addCollectible`/`addCollectibles`, `update`, `checkPlayerCollision`,
`collectItem`, `reset` and `clear`, the collected count equals the number
of owned collectibles with the collected flag set and the total count
equals the number of owned collectibles; hence the collected count never
exceeds the total and `getCollectionProgress` never reports more than
100 percent. -/
theorem collectibleManager_counts (m : CollectibleManager) (h : ReachCM m) :
    (m.collectedCount = countCollected m.collectibles ∧
     m.totalCount = m.collectibles.length) ∧
    m.collectedCount ≤ m.totalCount ∧
    (m.getCollectionProgress).percentage ≤ 100 := by
  have hinv : InvCM m := by
    induction h with
    | init => exact ⟨rfl, rfl⟩
    | add m x y ty _ ih => exact invCM_addCollectible m x y ty ih
    | addMany m ps ty _ ih => exact invCM_addCollectibles ps ty m ih
    | upd m dt _ ih => exact invCM_update dt m ih
    | check m now pl _ ih => exact invCM_checkPlayerCollision now pl m ih
    | collect m now i _ ih => exact invCM_collectItem now i m ih
    | reset m _ ih => exact invCM_reset m ih
    | clear m _ ih => exact invCM_clear m ih
  have hle : m.collectedCount ≤ m.totalCount := by
    rw [hinv.1, hinv.2]
    exact countCollected_le_length _
  refine ⟨hinv, hle, ?_⟩
  show (if m.totalCount > 0 then
      ((m.collectedCount : ℝ) / (m.totalCount : ℝ)) * 100 else 0) ≤ 100
  by_cases ht : m.totalCount > 0
  · rw [if_pos ht]
    have h1 : (m.collectedCount : ℝ) ≤ (m.totalCount : ℝ) :=
      Nat.cast_le.mpr hle
    have h2 : (0 : ℝ) < (m.totalCount : ℝ) := by exact_mod_cast ht
    have h3 : (m.collectedCount : ℝ) / (m.totalCount : ℝ) ≤ 1 :=
      (div_le_one h2).mpr h1
    nlinarith
  · rw [if_neg ht]
    norm_num

/-- Witness for C10: the state reached by adding one collectible and then
collecting it satisfies the counter invariant. -/
theorem collectibleManager_counts_witness :
    ReachCM (CollectibleManager.collectItem 0 0
      (CollectibleManager.init.addCollectible 170 120 ("pixel"))) ∧
    (((CollectibleManager.collectItem 0 0
        (CollectibleManager.init.addCollectible 170 120 ("pixel"))).collectedCount =
      countCollected (CollectibleManager.collectItem 0 0
        (CollectibleManager.init.addCollectible 170 120 ("pixel"))).collectibles ∧
      (CollectibleManager.collectItem 0 0
        (CollectibleManager.init.addCollectible 170 120 ("pixel"))).totalCount =
      (CollectibleManager.collectItem 0 0
        (CollectibleManager.init.addCollectible 170 120 ("pixel"))).collectibles.length) ∧
     (CollectibleManager.collectItem 0 0
        (CollectibleManager.init.addCollectible 170 120 ("pixel"))).collectedCount ≤
      (CollectibleManager.collectItem 0 0
        (CollectibleManager.init.addCollectible 170 120 ("pixel"))).totalCount ∧
     ((CollectibleManager.collectItem 0 0
        (CollectibleManager.init.addCollectible 170 120 ("pixel"))).getCollectionProgress).percentage ≤ 100) :=
  have hreach : ReachCM (CollectibleManager.collectItem 0 0
      (CollectibleManager.init.addCollectible 170 120 ("pixel"))) :=
    ReachCM.collect _ 0 0 (ReachCM.add _ 170 120 ("pixel") ReachCM.init)
  ⟨hreach, collectibleManager_counts _ hreach⟩

/-- C1 (evaluation at the failing input): the player standing exactly on
the only active collectible.  The player's collision check on it
succeeds, yet after `checkPlayerCollision` the manager's collected count
is unchanged (0, not 1) and no collection-effect record was appended,
because `handleCollectibleCollision` already cleared the collectible's
active flag, so the subsequent `collect()` inside `collectItem` fails. -/
theorem checkPlayerCollision_loses_pickup :
    (Player.init.handleCollectibleCollision c1Collectible).2.2 = true ∧
    (CollectibleManager.checkPlayerCollision 0 Player.init c1Manager).2.collectedCount
      = c1Manager.collectedCount ∧
    (CollectibleManager.checkPlayerCollision 0 Player.init c1Manager).2.collectionEffects
      = [] ∧
    (CollectibleManager.checkPlayerCollision 0 Player.init c1Manager).2.collectedCount
      ≠ c1Manager.collectedCount + 1 := by
  have hact : c1Collectible.active = true := rfl
  have hsize : c1Collectible.size = 8 := rfl
  have hx : c1Collectible.x = 170 := rfl
  have hy : c1Collectible.y = 120 := rfl
  have hdist : Real.sqrt ((Player.init.x + Player.init.width / 2 - c1Collectible.x) ^ 2 +
      (Player.init.y + Player.init.height / 2 - c1Collectible.y) ^ 2) <
      Player.init.width / 2 + c1Collectible.size := by
    have h1 : Player.init.x + Player.init.width / 2 - c1Collectible.x = 0 := by
      rw [hx]; norm_num [Player.init]
    have h2 : Player.init.y + Player.init.height / 2 - c1Collectible.y = 0 := by
      rw [hy]; norm_num [Player.init]
    rw [h1, h2, hsize]
    norm_num [Player.init, Real.sqrt_zero]
  have hcc : Player.init.handleCollectibleCollision c1Collectible =
      ({ Player.init with flashTime := 10 },
       { c1Collectible with active := false }, true) := by
    unfold Player.handleCollectibleCollision
    rw [if_neg (by rw [hact]; exact fun h => Bool.noConfusion h)]
    dsimp only
    rw [if_pos hdist]
  have hlist : c1Manager.collectibles = [c1Collectible] := by
    simp [c1Manager, c1Collectible, CollectibleManager.addCollectible,
      CollectibleManager.init]
  have hstep : CollectibleManager.checkPlayerCollision 0 Player.init c1Manager =
      CollectibleManager.checkOne 0 0 (Player.init, c1Manager) := by
    unfold CollectibleManager.checkPlayerCollision
    rw [hlist]
    rfl
  have hone : CollectibleManager.checkOne 0 0 (Player.init, c1Manager) =
      ({ Player.init with flashTime := 10 },
       CollectibleManager.collectItem 0 0
         { c1Manager with
             collectibles := [{ c1Collectible with active := false }] }) := by
    unfold CollectibleManager.checkOne
    simp [hlist, hact, hcc]
  have hitem : CollectibleManager.collectItem 0 0
      { c1Manager with
          collectibles := [{ c1Collectible with active := false }] } =
      { c1Manager with
          collectibles := [{ c1Collectible with active := false }] } := by
    have hc' : ({ c1Collectible with active := false } : Collectible).active = false := rfl
    have hcol := (collect_spec 0 ({ c1Collectible with active := false })).1 (Or.inl hc')
    unfold CollectibleManager.collectItem
    simp [hcol]
  have hfin : (CollectibleManager.checkPlayerCollision 0 Player.init c1Manager).2 =
      { c1Manager with collectibles := [{ c1Collectible with active := false }] } := by
    rw [hstep, hone, hitem]
  refine ⟨by rw [hcc], ?_, ?_, ?_⟩
  · rw [hfin]
  · rw [hfin]
    show c1Manager.collectionEffects = []
    rfl
  · rw [hfin]
    show c1Manager.collectedCount ≠ c1Manager.collectedCount + 1
    simp
